import Mathlib

/-!
Verification of the MidiDmxBridge signal-conversion and scene-management core.

The repository ships the unit tests, mocks and the Arduino sketch; the five
implementation units (DmxValue.cpp, ContinuousController.cpp, MidiReader.cpp,
Dmx.cpp, MidiDmxBridge.cpp) are not present, so the corresponding definitions
below are modelled from the specification (sections 3, 4.1 - 4.5) and
cross-checked against the behaviour pinned down by the unit tests.

Conventions of the embedding: machine bytes and 16-bit words are `Nat` with
explicit clamping where the code clamps; the change callback is embedded by
returning, from every mutating operation, the list of `(channel, value)`
pairs it emits, in emission order, next to the successor state.
-/

namespace MidiDmxBridgeModel

/-- Maximum MIDI data value (7-bit), 127. -/
def kMidiMax : Nat := 127

/-- Maximum DMX value reachable from MIDI, 254. -/
def kDmxMax : Nat := 254

/-- Unity gain, 1024. -/
def kGainMax : Nat := 1024

/-- Gain dead zone radius, 5. -/
def kDeadZone : Nat := 5

/-- Pointwise update of a channel store. -/
def upd (f : Nat → Nat) (k v : Nat) : Nat → Nat :=
  fun i => if i = k then v else f i

/-- Absolute difference on Nat, mirroring util absDiff_t. -/
def absDiff (a b : Nat) : Nat := max a b - min a b

/-- Modelled from the spec: DmxValue (DmxValue.cpp is missing from the
sources). A channel/value pair with a validity flag; the default-constructed
instance is the only invalid one (spec section 4.1). -/
structure DmxValue where
  channel : Nat
  value : Nat
  valid : Bool
deriving DecidableEq, Repr

/-- The default-constructed, invalid DmxValue. -/
def DmxValue.invalid : DmxValue := ⟨0, 0, false⟩

/-- Modelled from the spec: ContinuousController (ContinuousController.cpp is
missing from the sources). A raw MIDI (channel, value) pair (spec
section 4.2). -/
structure ContinuousController where
  channel : Nat
  value : Nat
deriving DecidableEq, Repr

/-- Modelled from the spec: ContinuousController::toDmx (spec section 4.2):
channel is ceiling-clamped to [0,127]; the value is doubled for inputs in
[0,127] and collapses to the fixed ceiling 254 for inputs above 127. -/
def ContinuousController.toDmx (cc : ContinuousController) : DmxValue :=
  ⟨min cc.channel kMidiMax, if cc.value ≤ kMidiMax then 2 * cc.value else kDmxMax, true⟩

/-- Modelled from the spec: the scene selector enum (spec section 3). -/
inductive Scene where
  | dynamic
  | static
deriving DecidableEq, Repr

/-- Modelled from the spec: the static-scene channel lists for red, green and
blue (spec section 3). -/
structure DmxRgbChannels where
  red : List Nat
  green : List Nat
  blue : List Nat

/-- Modelled from the spec: the static-scene RGB triple (spec section 3). -/
structure DmxRgb where
  red : Nat
  green : Nat
  blue : Nat

/-- Modelled from the spec: the state owned by the Dmx component (Dmx.cpp is
missing from the sources): active scene, last applied gain, the tracking-only
gain absorbed inside the dead zone, the stored (raw) dynamic value per
channel, the last emitted value per channel, and the static scene
configuration (spec sections 3 and 4.4). -/
structure DmxState where
  scene : Scene
  gain : Nat
  trackedGain : Nat
  dyn : Nat → Nat
  shown : Nat → Nat
  rgbChannels : DmxRgbChannels
  rgb : DmxRgb

/-- Gain-adjusted byte: value * gain / 1024 in integer arithmetic (spec
section 4.4). -/
def adjusted (gain v : Nat) : Nat := v * gain / kGainMax

/-- The 128 addressable channels, in sweep order. -/
def channelList : List Nat := List.range 128

/-- Change-driven emission sweep: walk the given channels in order; wherever
the target value differs from the currently shown value, show it and emit
one (channel, target) callback. Shared shape of the gain recomputation, the
dynamic blackout and the dynamic restore loops (spec section 4.4). -/
def emitSweep (target : Nat → Nat) : List Nat → (Nat → Nat) → ((Nat → Nat) × List (Nat × Nat))
  | [], shown => (shown, [])
  | ch :: rest, shown =>
    if target ch != shown ch then
      let r := emitSweep target rest (upd shown ch (target ch))
      (r.1, (ch, target ch) :: r.2)
    else
      emitSweep target rest shown

/-- Unconditional emission sweep: show the value v on each listed channel in
order and emit one (channel, v) callback per listed channel. Shape of the
static-scene lighting and static-scene blackout loops (spec section 4.4). -/
def emitAll (v : Nat) : List Nat → (Nat → Nat) → ((Nat → Nat) × List (Nat × Nat))
  | [], shown => (shown, [])
  | ch :: rest, shown =>
    let r := emitAll v rest (upd shown ch v)
    (r.1, (ch, v) :: r.2)

/-- Modelled from the spec: Dmx::setDmxValue (spec section 4.4): invalid
values are discarded; channels above 127 are discarded; otherwise the raw
value is recorded in the dynamic store, and if the dynamic scene is active
and the gain-adjusted byte differs from the channel's last emitted value,
the store is updated and one callback is emitted. -/
def setDmxValue (s : DmxState) (d : DmxValue) : DmxState × List (Nat × Nat) :=
  if d.valid = false then (s, [])
  else if kMidiMax < d.channel then (s, [])
  else
    let s1 := { s with dyn := upd s.dyn d.channel d.value }
    match s.scene with
    | Scene.dynamic =>
      let a := adjusted s.gain d.value
      if a = s.shown d.channel then (s1, [])
      else ({ s1 with shown := upd s.shown d.channel a }, [(d.channel, a)])
    | Scene.static => (s1, [])

/-- Modelled from the spec: Dmx::setMidiCcValue (spec section 4.4):
composition of ContinuousController::toDmx and setDmxValue. -/
def setMidiCcValue (s : DmxState) (ch v : Nat) : DmxState × List (Nat × Nat) :=
  setDmxValue s (ContinuousController.toDmx ⟨ch, v⟩)

/-- Modelled from the spec: Dmx::setGain (spec section 4.4): the new gain is
clamped to [0,1024]; if it lies within the dead zone (absolute difference at
most 5) of the last applied gain it is absorbed tracking-only and nothing is
emitted; otherwise it is applied and every channel whose gain-adjusted value
differs from its last emitted value is re-emitted. -/
def setGain (s : DmxState) (g : Nat) : DmxState × List (Nat × Nat) :=
  let g1 := min g kGainMax
  if absDiff g1 s.gain ≤ kDeadZone then
    ({ s with trackedGain := g1 }, [])
  else
    let r := emitSweep (fun ch => adjusted g1 (s.dyn ch)) channelList s.shown
    ({ s with gain := g1, trackedGain := g1, shown := r.1 }, r.2)

/-- Modelled from the spec: Dmx::setStaticScene (spec section 4.4): stores the
configuration, emits nothing. -/
def setStaticScene (s : DmxState) (chs : DmxRgbChannels) (c : DmxRgb) : DmxState :=
  { s with rgbChannels := chs, rgb := c }

/-- Modelled from the spec: Dmx::activateStaticScene (spec section 4.4):
no-op when already static; otherwise blackout of every currently non-zero
dynamic channel, then scene := static, then emission of the configured static
channels in red, green, blue order. -/
def activateStaticScene (s : DmxState) : DmxState × List (Nat × Nat) :=
  match s.scene with
  | Scene.static => (s, [])
  | Scene.dynamic =>
    let bl := emitSweep (fun _ => 0) channelList s.shown
    let r := emitAll s.rgb.red s.rgbChannels.red bl.1
    let g := emitAll s.rgb.green s.rgbChannels.green r.1
    let b := emitAll s.rgb.blue s.rgbChannels.blue g.1
    ({ s with scene := Scene.static, shown := b.1 }, bl.2 ++ (r.2 ++ g.2 ++ b.2))

/-- Modelled from the spec: Dmx::activateDynamicScene (spec section 4.4):
no-op when already dynamic; otherwise blackout of the static channels in the
red, green, blue order used to light them, then scene := dynamic, then
re-emission of the gain-adjusted stored dynamic value on every channel where
it differs from what is currently shown (restoring the pre-switch dynamic
state). -/
def activateDynamicScene (s : DmxState) : DmxState × List (Nat × Nat) :=
  match s.scene with
  | Scene.dynamic => (s, [])
  | Scene.static =>
    let r := emitAll 0 s.rgbChannels.red s.shown
    let g := emitAll 0 s.rgbChannels.green r.1
    let b := emitAll 0 s.rgbChannels.blue g.1
    let rest := emitSweep (fun ch => adjusted s.gain (s.dyn ch)) channelList b.1
    ({ s with scene := Scene.dynamic, shown := rest.1 }, (r.2 ++ g.2 ++ b.2) ++ rest.2)

/-- Modelled from the spec: the initial Dmx state (spec sections 3, 4.4 and
6): dynamic scene, unity gain, all channels dark. -/
def initDmx (chs : DmxRgbChannels) (c : DmxRgb) : DmxState :=
  ⟨Scene.dynamic, kGainMax, kGainMax, fun _ => 0, fun _ => 0, chs, c⟩

/-- Modelled from the spec: the MidiReader protocol states (spec section
4.3, MidiReader.cpp is missing from the sources): waiting for a status byte,
status accepted, or status and controller number accepted. -/
inductive ReaderState where
  | waitingForStatus
  | haveStatus
  | haveController (controller : Nat)
deriving DecidableEq, Repr

/-- A byte is the status byte of a CC frame for the configured channel when
its high nibble is the CC marker 0xB and its low nibble equals the
configured channel (spec section 4.3). -/
def isStatusFor (channel b : Nat) : Bool :=
  (b / 16 = 11) && (b % 16 = channel)

/-- Modelled from the spec: one byte of the MidiReader state machine (spec
section 4.3): a non-matching byte while waiting is skipped
(resynchronization); after a matching status byte the next byte is the
controller number and the one after completes the frame, resetting the
machine. -/
def readerStep (channel : Nat) (st : ReaderState) (b : Nat) :
    ReaderState × Option (Nat × Nat) :=
  match st with
  | ReaderState.waitingForStatus =>
    if isStatusFor channel b then (ReaderState.haveStatus, none)
    else (ReaderState.waitingForStatus, none)
  | ReaderState.haveStatus => (ReaderState.haveController b, none)
  | ReaderState.haveController c => (ReaderState.waitingForStatus, some (c, b))

/-- Modelled from the spec: one poll of the MidiReader (spec section 4.3):
consume bytes from the source until a frame completes or the source empties;
return the frame (if any), the reader state, and the bytes left in the
source. An empty source yields no frame without mutating state; a partial
frame leaves the reader mid-frame (resumable buffering per spec section 9). -/
def readFrame (channel : Nat) : ReaderState → List Nat → Option (Nat × Nat) × ReaderState × List Nat
  | st, [] => (none, st, [])
  | st, b :: rest =>
    match readerStep channel st b with
    | (st1, some f) => (some f, st1, rest)
    | (st1, none) => readFrame channel st1 rest

/-- Modelled from the spec: the state of the bridge (MidiDmxBridge.cpp is
missing from the sources): the reader's configured MIDI channel of interest
in [0,15], the reader state, the bytes available from the serial source this
poll, and the Dmx state (spec section 4.5). -/
structure BridgeState where
  channel : Nat
  reader : ReaderState
  pending : List Nat
  dmx : DmxState

/-- Modelled from the spec: MidiDmxBridge::listen (spec section 4.5): per
poll, ask the MidiReader for the next frame from the byte source; on success
feed the parsed (controller, value) pair to Dmx::setMidiCcValue. -/
def listen (s : BridgeState) : BridgeState × List (Nat × Nat) :=
  match readFrame s.channel s.reader s.pending with
  | (some f, rst, rest) =>
    let r := setMidiCcValue s.dmx f.1 f.2
    ({ s with reader := rst, pending := rest, dmx := r.1 }, r.2)
  | (none, rst, rest) => ({ s with reader := rst, pending := rest }, [])

/-- A freshly constructed bridge listening on reader channel 0 with the given
serial bytes pending and no static scene configured. -/
def bridge0 (bytes : List Nat) : BridgeState :=
  ⟨0, ReaderState.waitingForStatus, bytes, initDmx ⟨[], [], []⟩ ⟨0, 0, 0⟩⟩

/-- The store obtained by forcing value 0 on every channel of a list. -/
def zeroOn (l : List Nat) (f : Nat → Nat) : Nat → Nat :=
  fun i => if i ∈ l then 0 else f i

theorem upd_self (f : Nat → Nat) (k v : Nat) : upd f k v k = v := by
  simp [upd]

theorem upd_of_ne (f : Nat → Nat) (k v i : Nat) (h : i ≠ k) : upd f k v i = f i := by
  simp [upd, h]

theorem emitSweep_emissions (target : Nat → Nat) :
    ∀ (l : List Nat) (shown : Nat → Nat), l.Nodup →
      (emitSweep target l shown).2
        = (l.filter (fun ch => target ch != shown ch)).map (fun ch => (ch, target ch)) := by
  intro l
  induction l with
  | nil => intro shown _; simp [emitSweep]
  | cons ch rest ih =>
    intro shown hnd
    rw [List.nodup_cons] at hnd
    obtain ⟨hch, hrest⟩ := hnd
    by_cases hb : target ch = shown ch
    · have hfalse : (target ch != shown ch) = false := by simp [hb]
      simp [emitSweep, hfalse, List.filter_cons, ih shown hrest]
    · have htrue : (target ch != shown ch) = true := by simp [hb]
      have hfil : rest.filter (fun c => target c != upd shown ch (target ch) c)
          = rest.filter (fun c => target c != shown c) := by
        apply List.filter_congr
        intro x hx
        have hxch : x ≠ ch := fun h => hch (h ▸ hx)
        rw [upd_of_ne _ _ _ _ hxch]
      simp [emitSweep, htrue, List.filter_cons, ih _ hrest, hfil]

theorem emitAll_emissions (v : Nat) :
    ∀ (l : List Nat) (shown : Nat → Nat),
      (emitAll v l shown).2 = l.map (fun ch => (ch, v)) := by
  intro l
  induction l with
  | nil => intro shown; simp [emitAll]
  | cons ch rest ih => intro shown; simp [emitAll, ih]

theorem emitAll_shown (v : Nat) :
    ∀ (l : List Nat) (shown : Nat → Nat),
      (emitAll v l shown).1 = fun i => if i ∈ l then v else shown i := by
  intro l
  induction l with
  | nil => intro shown; funext i; simp [emitAll]
  | cons ch rest ih =>
    intro shown
    rw [emitAll, ih]
    funext i
    by_cases hi : i ∈ rest
    · simp [hi]
    · by_cases hic : i = ch
      · simp [hi, hic, upd_self]
      · simp [hi, hic, upd_of_ne _ _ _ _ hic]

theorem zeroOn_comp (a b c : List Nat) (f : Nat → Nat) :
    zeroOn c (zeroOn b (zeroOn a f)) = zeroOn (a ++ b ++ c) f := by
  funext i
  simp only [zeroOn, List.mem_append]
  by_cases hc : i ∈ c
  · simp [hc]
  · by_cases hb : i ∈ b
    · simp [hb, hc]
    · by_cases ha : i ∈ a
      · simp [ha, hb, hc]
      · simp [ha, hb, hc]

theorem channelList_nodup : channelList.Nodup := List.nodup_range 128

theorem bne_zero_comm (a : Nat) : ((0 : Nat) != a) = (a != 0) := by
  cases a <;> rfl

/-- Claim C1: for every MIDI CC pair (c, v) with c and v bytes,
ContinuousController.toDmx returns a DmxValue whose value is 2*v for v in
[0,127] and the fixed ceiling 254 (not 255) for v in [128,255], and whose
channel is c for c in [0,127] and 127 for c in [128,255]. -/
theorem toDmx_mapping (c v : Nat) (hc : c < 256) (hv : v < 256) :
    (v ≤ 127 → (ContinuousController.toDmx ⟨c, v⟩).value = 2 * v)
    ∧ (128 ≤ v → (ContinuousController.toDmx ⟨c, v⟩).value = 254)
    ∧ (c ≤ 127 → (ContinuousController.toDmx ⟨c, v⟩).channel = c)
    ∧ (128 ≤ c → (ContinuousController.toDmx ⟨c, v⟩).channel = 127) := by
  refine ⟨?_, ?_, ?_, ?_⟩ <;> intro h
  · simp [ContinuousController.toDmx, kMidiMax, kDmxMax, h]
  · have hgt : ¬ v ≤ 127 := by omega
    simp [ContinuousController.toDmx, kMidiMax, kDmxMax, hgt]
  · simp [ContinuousController.toDmx, kMidiMax, Nat.min_eq_left h]
  · simp only [ContinuousController.toDmx, kMidiMax]
    omega

theorem toDmx_mapping_witness :
    (ContinuousController.toDmx ⟨200, 150⟩).value = 254
    ∧ (ContinuousController.toDmx ⟨200, 150⟩).channel = 127 :=
  ⟨(toDmx_mapping 200 150 (by decide) (by decide)).2.1 (by decide),
   (toDmx_mapping 200 150 (by decide) (by decide)).2.2.2 (by decide)⟩

/-- Claim C2: setGain first clamps the new gain to [0,1024]; if the absolute
difference between the clamped gain and the last applied gain is at most 5
no callback fires; if it exceeds 5 the callback fires exactly once per
channel whose gain-adjusted value (value * gain / 1024) differs from the
channel's last emitted value, and for no other channel (each channel occurs
at most once among the emissions). -/
theorem setGain_spec (s : DmxState) (g : Nat) :
    ((setGain s g).2
      = (if absDiff (min g kGainMax) s.gain ≤ kDeadZone then []
         else (channelList.filter
                 (fun ch => adjusted (min g kGainMax) (s.dyn ch) != s.shown ch)).map
                (fun ch => (ch, adjusted (min g kGainMax) (s.dyn ch)))))
    ∧ ((setGain s g).2.map Prod.fst).Nodup := by
  have hmain : (setGain s g).2
      = (if absDiff (min g kGainMax) s.gain ≤ kDeadZone then []
         else (channelList.filter
                 (fun ch => adjusted (min g kGainMax) (s.dyn ch) != s.shown ch)).map
                (fun ch => (ch, adjusted (min g kGainMax) (s.dyn ch)))) := by
    by_cases h : absDiff (min g kGainMax) s.gain ≤ kDeadZone
    · simp [setGain, h]
    · simp [setGain, h, emitSweep_emissions _ channelList s.shown channelList_nodup]
  refine ⟨hmain, ?_⟩
  rw [hmain]
  by_cases h : absDiff (min g kGainMax) s.gain ≤ kDeadZone
  · simp [h]
  · simp only [h, if_false, List.map_map]
    have hid : (Prod.fst ∘ fun ch => (ch, adjusted (min g kGainMax) (s.dyn ch)))
        = fun ch : Nat => ch := rfl
    rw [hid]
    simpa using (channelList_nodup.filter
      (fun ch => adjusted (min g kGainMax) (s.dyn ch) != s.shown ch))

theorem emitAll_zero_shown (l : List Nat) (shown : Nat → Nat) :
    (emitAll 0 l shown).1 = zeroOn l shown :=
  emitAll_shown 0 l shown

/-- An example Dmx state in the dynamic scene, configured as in the unit
tests: red on channel 1, green on channel 2, blue on channel 3, static RGB
triple (21, 42, 63). -/
def exampleDmx : DmxState := initDmx ⟨[1], [2], [3]⟩ ⟨21, 42, 63⟩

/-- Claim C3: activating the static scene while the dynamic scene is active
first emits value 0 for every channel currently non-zero in the dynamic
scene, and only after all those blackout emissions does it emit the static
scene's (channel, colorByte) pairs, one callback per configured channel per
color, in red then green then blue order. -/
theorem activateStaticScene_order (s : DmxState) (h : s.scene = Scene.dynamic) :
    (activateStaticScene s).2
      = ((channelList.filter (fun ch => s.shown ch != 0)).map (fun ch => (ch, 0)))
        ++ (s.rgbChannels.red.map (fun ch => (ch, s.rgb.red))
            ++ s.rgbChannels.green.map (fun ch => (ch, s.rgb.green))
            ++ s.rgbChannels.blue.map (fun ch => (ch, s.rgb.blue))) := by
  have hfil : channelList.filter (fun ch => ((fun _ => (0 : Nat)) ch != s.shown ch))
      = channelList.filter (fun ch => s.shown ch != 0) :=
    List.filter_congr (fun x _ => bne_zero_comm (s.shown x))
  simp only [activateStaticScene, h]
  rw [emitSweep_emissions _ channelList s.shown channelList_nodup,
    emitAll_emissions, emitAll_emissions, emitAll_emissions, hfil]

theorem activateStaticScene_order_witness :
    (activateStaticScene exampleDmx).2 = [(1, 21), (2, 42), (3, 63)] :=
  (activateStaticScene_order exampleDmx rfl).trans (by decide)

/-- Claim C4: activating the dynamic scene while the static scene is active
first emits 0 for every channel the static scene configuration lights, in
the same red then green then blue per-channel order used to light them, and
then re-emits the gain-adjusted stored dynamic value for every channel where
it differs from what is shown after the blackout, restoring the pre-switch
dynamic state. -/
theorem activateDynamicScene_order (s : DmxState) (h : s.scene = Scene.static) :
    (activateDynamicScene s).2
      = (s.rgbChannels.red.map (fun ch => (ch, 0))
         ++ s.rgbChannels.green.map (fun ch => (ch, 0))
         ++ s.rgbChannels.blue.map (fun ch => (ch, 0)))
        ++ ((channelList.filter
              (fun ch => adjusted s.gain (s.dyn ch)
                 != zeroOn (s.rgbChannels.red ++ s.rgbChannels.green ++ s.rgbChannels.blue)
                      s.shown ch)).map
             (fun ch => (ch, adjusted s.gain (s.dyn ch)))) := by
  simp only [activateDynamicScene, h]
  rw [emitAll_emissions, emitAll_emissions, emitAll_emissions,
    emitAll_zero_shown, emitAll_zero_shown, emitAll_zero_shown, zeroOn_comp,
    emitSweep_emissions _ channelList _ channelList_nodup]

theorem activateDynamicScene_order_witness :
    (activateDynamicScene (activateStaticScene exampleDmx).1).2
      = [(1, 0), (2, 0), (3, 0)] :=
  (activateDynamicScene_order (activateStaticScene exampleDmx).1 (by decide)).trans
    (by decide)

/-- Claim C5: with the reader configured for MIDI channel 0, one poll on the
byte stream [0xB0, 0x01, 0x02] produces exactly the callback (1, 4); one
poll on [0xB1, 0x01, 0x02] produces no callback, the embedded channel 1 of
the status byte not matching, and the reader ends the poll resynchronized
in the waiting-for-status state. -/
theorem listen_channel_match_scenarios :
    (listen (bridge0 [0xB0, 0x01, 0x02])).2 = [(1, 4)]
    ∧ (listen (bridge0 [0xB1, 0x01, 0x02])).2 = []
    ∧ (listen (bridge0 [0xB1, 0x01, 0x02])).1.reader = ReaderState.waitingForStatus := by
  refine ⟨?_, ?_, ?_⟩ <;> decide

/-- Claim C6: setDmxValue discards an invalid DmxValue (no callback, no
state change) and discards any value whose channel exceeds 127; otherwise,
with the dynamic scene active, the emitted-value store is updated and the
callback fires with (channel, gain-adjusted byte) exactly when the
gain-adjusted byte differs from the channel's last emitted value. -/
theorem setDmxValue_spec (s : DmxState) (d : DmxValue) :
    (d.valid = false → setDmxValue s d = (s, []))
    ∧ (127 < d.channel → setDmxValue s d = (s, []))
    ∧ (d.valid = true → d.channel ≤ 127 → s.scene = Scene.dynamic →
        ((setDmxValue s d).2
          = (if adjusted s.gain d.value = s.shown d.channel then []
             else [(d.channel, adjusted s.gain d.value)]))
        ∧ ((setDmxValue s d).1.shown
          = (if adjusted s.gain d.value = s.shown d.channel then s.shown
             else upd s.shown d.channel (adjusted s.gain d.value)))) := by
  refine ⟨?_, ?_, ?_⟩
  · intro h
    simp [setDmxValue, h]
  · intro h
    by_cases hv : d.valid = false
    · simp [setDmxValue, hv]
    · simp [setDmxValue, hv, kMidiMax, h]
  · intro hv hch hs
    have hlt : ¬ kMidiMax < d.channel := by simp [kMidiMax]; omega
    by_cases ha : adjusted s.gain d.value = s.shown d.channel <;>
      simp [setDmxValue, hv, hlt, hs, ha]

theorem setDmxValue_spec_witness :
    (setDmxValue exampleDmx ⟨1, 42, true⟩).2 = [(1, 42)] :=
  (((setDmxValue_spec exampleDmx ⟨1, 42, true⟩).2.2 rfl (by decide) rfl).1).trans
    (by decide)

/-- The Dmx state of the gain scenario after channel 0 is set to 254 at
unity gain. -/
def gainScenario : DmxState :=
  (setDmxValue (initDmx ⟨[], [], []⟩ ⟨0, 0, 0⟩) ⟨0, 254, true⟩).1

/-- Claim C7: after setGain(512) has been applied, setGain(516) fires no
callback (difference 4 lies in the dead zone) and leaves the applied-gain
reference at 512, and a subsequent setGain(520) does fire the callback,
the dead-zone comparison being made against the retained 512 reference
(difference 8) rather than against the absorbed 516 value (difference 4). -/
theorem setGain_deadZone_reference :
    ((setGain gainScenario 512).2 = [(0, 127)])
    ∧ ((setGain (setGain gainScenario 512).1 516).2 = [])
    ∧ ((setGain (setGain gainScenario 512).1 516).1.gain = 512)
    ∧ ((setGain (setGain (setGain gainScenario 512).1 516).1 520).2 = [(0, 128)]) := by
  refine ⟨?_, ?_, ?_, ?_⟩ <;> decide

/-- Claim C8: scene activation is idempotent: activateStaticScene on a
static-scene state and activateDynamicScene on a dynamic-scene state emit no
callbacks and change no state, and in particular two consecutive calls of
activateStaticScene produce the blackout-plus-activation sequence only once
(the second call is a strict no-op). -/
theorem scene_activation_idempotent (s : DmxState) :
    (s.scene = Scene.static → activateStaticScene s = (s, []))
    ∧ (s.scene = Scene.dynamic → activateDynamicScene s = (s, []))
    ∧ activateStaticScene (activateStaticScene s).1 = ((activateStaticScene s).1, []) := by
  have hstat : ∀ t : DmxState, t.scene = Scene.static → activateStaticScene t = (t, []) := by
    intro t ht
    simp [activateStaticScene, ht]
  refine ⟨hstat s, ?_, ?_⟩
  · intro h
    simp [activateDynamicScene, h]
  · have h1 : (activateStaticScene s).1.scene = Scene.static := by
      cases hs : s.scene <;> simp [activateStaticScene, hs]
    exact hstat _ h1

theorem scene_activation_idempotent_witness :
    activateStaticScene (activateStaticScene exampleDmx).1
      = ((activateStaticScene exampleDmx).1, []) :=
  (scene_activation_idempotent exampleDmx).2.2

/-- Claim C9: with gain and scene state unchanged, two consecutive identical
setMidiCcValue calls fire the callback at most on the first call: the second
identical call emits nothing, because the first call left the channel's last
emitted value equal to the value the second would emit. -/
theorem setMidiCcValue_idempotent (s : DmxState) (ch v : Nat) :
    (setMidiCcValue (setMidiCcValue s ch v).1 ch v).2 = [] := by
  have hv : (ContinuousController.toDmx ⟨ch, v⟩).valid = true := rfl
  have hch : ¬ kMidiMax < (ContinuousController.toDmx ⟨ch, v⟩).channel := by
    simp [ContinuousController.toDmx, kMidiMax]
  cases hs : s.scene
  case dynamic =>
    by_cases ha : adjusted s.gain (ContinuousController.toDmx ⟨ch, v⟩).value
        = s.shown (ContinuousController.toDmx ⟨ch, v⟩).channel
    · simp [setMidiCcValue, setDmxValue, hv, hch, hs, ha]
    · simp [setMidiCcValue, setDmxValue, hv, hch, hs, ha, upd_self]
  case static =>
    simp [setMidiCcValue, setDmxValue, hv, hch, hs]

/-- Claim C10: a trailing partial CC frame produces no output: one poll on
the stream [0xB0, 0x01, 0x02, 0xB0, 0x03] fires exactly the callback (1, 4)
and leaves the trailing bytes [0xB0, 0x03] pending, and the poll that
consumes those trailing bytes empties the source after the status and
controller bytes, completing no frame and firing no callback. -/
theorem listen_partial_frame :
    ((listen (bridge0 [0xB0, 0x01, 0x02, 0xB0, 0x03])).2 = [(1, 4)])
    ∧ ((listen (bridge0 [0xB0, 0x01, 0x02, 0xB0, 0x03])).1.pending = [0xB0, 0x03])
    ∧ ((listen (listen (bridge0 [0xB0, 0x01, 0x02, 0xB0, 0x03])).1).2 = [])
    ∧ ((listen (listen (bridge0 [0xB0, 0x01, 0x02, 0xB0, 0x03])).1).1.pending = []) := by
  refine ⟨?_, ?_, ?_, ?_⟩ <;> decide

end MidiDmxBridgeModel
